import Mathlib

/-!
Verification of the cache module of the nodle-plugin-sdk repository
(src/cache.rs, payload types from src/data_types.rs).

Embedding conventions:
* Rust `String` is Lean `String`; `u32`, `usize` are `Nat` (the cache code
  only ever compares these for equality, never does wrapping arithmetic);
  `i32` is `Int`.
* `f32` payload fields are modelled as exact rationals (`F32 := Rat`); the
  cache layer transports `NodeData` payloads opaquely and never computes
  with them.
* `Vec<T>` is `List T`; `HashMap<K,V>` is an association list `List (K × V)`;
  `[[f32; 4]; 4]` is `Fin 4 → Fin 4 → F32`.
* `Result<(), String>` is `Except String Unit`; `Option<T>` is `Option T`.
* `&mut self` / `&mut dyn PluginCache` are explicit state passing: a method
  that mutates the manager and the store returns the new manager, the new
  store state and the Rust return value, in that order.
-/

/-- Rust `f32`, modelled as an exact rational (payloads are opaque to the cache). -/
abbrev F32 := Rat

/-- Rust `[f32; 2]`. -/
abbrev Vec2f := F32 × F32

/-- Rust `[f32; 3]`. -/
abbrev Vec3f := F32 × F32 × F32

/-- Rust `[f32; 4]`. -/
abbrev Vec4f := F32 × F32 × F32 × F32

/-- Rust `[[f32; 4]; 4]` transform matrix. -/
abbrev Mat4 := Fin 4 → Fin 4 → F32

/-- `GeometryData` from data_types.rs. -/
structure GeometryData where
  id : String
  vertices : List Vec3f
  indices : List Nat
  normals : List Vec3f
  uvs : List Vec2f
  material_id : Option String

/-- `MaterialData` from data_types.rs. -/
structure MaterialData where
  id : String
  base_color : Vec4f
  metallic : F32
  roughness : F32
  normal_map : Option String
  diffuse_map : Option String

/-- `StageData` from data_types.rs. -/
structure StageData where
  identifier : String
  file_path : Option String
  prims : List String

/-- `LightType` from data_types.rs. -/
inductive LightType where
  | Point
  | Directional (direction : Vec3f)
  | Spot (direction : Vec3f) (cone_angle : F32)

/-- `LightData` from data_types.rs. -/
structure LightData where
  id : String
  light_type : LightType
  position : Vec3f
  color : Vec3f
  intensity : F32

/-- `ImageFormat` from data_types.rs. -/
inductive ImageFormat where
  | RGB8
  | RGBA8
  | HDR

/-- `ImageData` from data_types.rs. -/
structure ImageData where
  id : String
  file_path : Option String
  width : Nat
  height : Nat
  format : ImageFormat

/-- `SceneData` from data_types.rs. -/
structure SceneData where
  geometry : List GeometryData
  materials : List MaterialData
  lights : List LightData
  transforms : List (String × Mat4)

/-- `PrimvarInterpolation` from data_types.rs. -/
inductive PrimvarInterpolation where
  | Constant
  | Uniform
  | Varying
  | Vertex
  | FaceVarying

/-- `PrimvarValues` from data_types.rs. -/
inductive PrimvarValues where
  | Float (values : List F32)
  | Vec2 (values : List Vec2f)
  | Vec3 (values : List Vec3f)
  | Vec4 (values : List Vec4f)
  | Int (values : List Int)
  | String (values : List String)

/-- `USDPrimvar` from data_types.rs. -/
structure USDPrimvar where
  name : String
  interpolation : PrimvarInterpolation
  values : PrimvarValues

/-- `USDMeshGeometry` from data_types.rs. -/
structure USDMeshGeometry where
  prim_path : String
  display_name : String
  vertices : List Vec3f
  indices : List Nat
  normals : List Vec3f
  uvs : List Vec2f
  vertex_colors : List Vec3f
  transform : Mat4
  material_path : Option String
  primvars : List (String × USDPrimvar)

/-- `USDLightType` from data_types.rs. -/
inductive USDLightType where
  | Distant
  | Sphere
  | Rect
  | Disk
  | Cylinder

/-- `USDLight` from data_types.rs. -/
structure USDLight where
  prim_path : String
  display_name : String
  light_type : USDLightType
  transform : Mat4
  color : Vec3f
  intensity : F32
  exposure : F32

/-- `USDMaterial` from data_types.rs. -/
structure USDMaterial where
  prim_path : String
  display_name : String
  diffuse_color : Vec3f
  specular_color : Vec3f
  metallic : F32
  roughness : F32
  opacity : F32
  emission_color : Vec3f
  normal_map : Option String
  diffuse_map : Option String

/-- `USDSceneData` from data_types.rs. -/
structure USDSceneData where
  up_axis : String
  meshes : List USDMeshGeometry
  lights : List USDLight
  materials : List USDMaterial
  bounds : Option (Vec3f × Vec3f)

/-- `USDPrimInfo` from data_types.rs (recursive: children are prim infos). -/
inductive USDPrimInfo where
  | mk (path name prim_type : String) (children : List USDPrimInfo)
       (has_geometry has_material : Bool)
       (vertex_count triangle_count : Option Nat)

/-- `USDScenegraphMetadata` from data_types.rs. -/
structure USDScenegraphMetadata where
  hierarchy : List USDPrimInfo
  total_meshes : Nat
  total_lights : Nat
  total_materials : Nat
  bounds : Option (Vec3f × Vec3f)
  up_axis : String

/-- `NodeData` from data_types.rs: the tagged union of all values a node can
produce; transported opaquely through the cache. -/
inductive NodeData where
  | Scene (data : SceneData)
  | Geometry (data : GeometryData)
  | Material (data : MaterialData)
  | Stage (data : StageData)
  | USDSceneData (data : USDSceneData)
  | USDScenegraphMetadata (data : USDScenegraphMetadata)
  | Light (data : LightData)
  | Image (data : ImageData)
  | Float (value : F32)
  | Integer (value : Int)
  | Vector3 (value : Vec3f)
  | Color (value : Vec4f)
  | String (value : String)
  | Boolean (value : Bool)
  | Any (handle : String)
  | USDScene (value : String)
  | None

/-- `PluginCacheKey` from cache.rs: identity tuple for one cached value. -/
structure PluginCacheKey where
  plugin_id : String
  node_id : Nat
  stage_id : Option String
  port_index : Nat
deriving DecidableEq, Repr

/-- `PluginCacheKey::new`: cache key for a single-stage plugin node output. -/
def PluginCacheKey.new (plugin_id : String) (node_id : Nat) (port_index : Nat) :
    PluginCacheKey :=
  { plugin_id := plugin_id, node_id := node_id, stage_id := none,
    port_index := port_index }

/-- `PluginCacheKey::with_stage`: cache key for a multi-stage plugin node output. -/
def PluginCacheKey.with_stage (plugin_id : String) (node_id : Nat)
    (stage_id : String) (port_index : Nat) : PluginCacheKey :=
  { plugin_id := plugin_id, node_id := node_id, stage_id := some stage_id,
    port_index := port_index }

/-- `PluginCacheKey::has_stage`: whether this is a stage-specific cache key. -/
def PluginCacheKey.has_stage (k : PluginCacheKey) : Bool :=
  k.stage_id.isSome

/-- `PluginCacheKey::get_stage`: the stage ID if this is a multi-stage key. -/
def PluginCacheKey.get_stage (k : PluginCacheKey) : Option String :=
  k.stage_id

/-- `PluginCacheKeyPattern` from cache.rs: pattern for matching cache keys
during invalidation. -/
inductive PluginCacheKeyPattern where
  | Node (plugin_id : String) (node_id : Nat)
  | Stage (plugin_id : String) (node_id : Nat) (stage_id : String)
  | Exact (key : PluginCacheKey)
  | Plugin (plugin_id : String)

/-- `PluginCacheKeyPattern::matches`: whether this pattern matches a given key. -/
def PluginCacheKeyPattern.matches (p : PluginCacheKeyPattern)
    (key : PluginCacheKey) : Bool :=
  match p with
  | .Node plugin_id node_id =>
      key.plugin_id == plugin_id && key.node_id == node_id
  | .Stage plugin_id node_id stage =>
      key.plugin_id == plugin_id && key.node_id == node_id
        && key.stage_id == some stage
  | .Exact exact_key => key == exact_key
  | .Plugin plugin_id => key.plugin_id == plugin_id

/-- `PluginCacheStatistics` from cache.rs (`#[derive(Default)]` gives the
zero/empty defaults). -/
structure PluginCacheStatistics where
  plugin_id : String := ""
  total_entries : Nat := 0
  single_stage_entries : Nat := 0
  multi_stage_entries : Nat := 0
  cache_hits : Nat := 0
  cache_misses : Nat := 0
  cache_invalidations : Nat := 0
  estimated_memory_usage : Nat := 0

/-- `PluginCacheStatistics::hit_ratio`: hits / (hits + misses), `0.0` when
there were no accesses. The `f32` result is modelled as an exact rational. -/
def PluginCacheStatistics.hit_ratio (s : PluginCacheStatistics) : Rat :=
  let total_accesses := s.cache_hits + s.cache_misses
  if total_accesses = 0 then 0
  else (s.cache_hits : Rat) / (total_accesses : Rat)

/-- `PluginCacheStatistics::avg_memory_per_entry`: integer division, `0` when
there are no entries. -/
def PluginCacheStatistics.avg_memory_per_entry (s : PluginCacheStatistics) : Nat :=
  if s.total_entries = 0 then 0
  else s.estimated_memory_usage / s.total_entries

/-- The `PluginCache` trait from cache.rs: the host-owned cache store
capability, with `σ` the host's store state; each `&mut self` method returns
the new state alongside its Rust return value. -/
structure PluginCache (σ : Type) where
  insert : σ → PluginCacheKey → NodeData → σ × Except String Unit
  get : σ → PluginCacheKey → Option NodeData
  take : σ → PluginCacheKey → σ × Option NodeData
  contains : σ → PluginCacheKey → Bool
  invalidate : σ → PluginCacheKeyPattern → σ × Nat
  clear_plugin : σ → String → σ × Nat
  get_plugin_statistics : σ → String → PluginCacheStatistics
  get_plugin_keys : σ → String → List PluginCacheKey

/-- `PluginCacheManager` from cache.rs: a plugin identifier plus the
plugin-local list of managed cache keys. -/
structure PluginCacheManager where
  plugin_id : String
  managed_keys : List PluginCacheKey

/-- `PluginCacheManager::new`. -/
def PluginCacheManager.new (plugin_id : String) : PluginCacheManager :=
  { plugin_id := plugin_id, managed_keys := [] }

/-- `PluginCacheManager::create_key`. -/
def PluginCacheManager.create_key (m : PluginCacheManager) (node_id : Nat)
    (port_index : Nat) : PluginCacheKey :=
  PluginCacheKey.new m.plugin_id node_id port_index

/-- `PluginCacheManager::create_stage_key`. -/
def PluginCacheManager.create_stage_key (m : PluginCacheManager) (node_id : Nat)
    (stage_id : String) (port_index : Nat) : PluginCacheKey :=
  PluginCacheKey.with_stage m.plugin_id node_id stage_id port_index

/-- `PluginCacheManager::store`: calls `cache.insert`, and pushes the key onto
the managed list only when the insert result `is_ok()`; returns the insert
result unchanged. -/
def PluginCacheManager.store {σ : Type} (m : PluginCacheManager)
    (cache : PluginCache σ) (s : σ) (key : PluginCacheKey) (data : NodeData) :
    PluginCacheManager × σ × Except String Unit :=
  let r := cache.insert s key data
  match r.2 with
  | .ok _ => ({ m with managed_keys := m.managed_keys ++ [key] }, r.1, r.2)
  | .error e => (m, r.1, .error e)

/-- `PluginCacheManager::invalidate_node`: builds a `Node(plugin_id, node_id)`
pattern, invalidates it in the store, then retains only the managed keys the
pattern does not match; returns the store's count. -/
def PluginCacheManager.invalidate_node {σ : Type} (m : PluginCacheManager)
    (cache : PluginCache σ) (s : σ) (node_id : Nat) :
    PluginCacheManager × σ × Nat :=
  let pattern := PluginCacheKeyPattern.Node m.plugin_id node_id
  let r := cache.invalidate s pattern
  ({ m with managed_keys := m.managed_keys.filter (fun key => !(pattern.matches key)) },
   r.1, r.2)

/-- `PluginCacheManager::invalidate_stage`: same as `invalidate_node` with a
`Stage(plugin_id, node_id, stage_id)` pattern. -/
def PluginCacheManager.invalidate_stage {σ : Type} (m : PluginCacheManager)
    (cache : PluginCache σ) (s : σ) (node_id : Nat) (stage_id : String) :
    PluginCacheManager × σ × Nat :=
  let pattern := PluginCacheKeyPattern.Stage m.plugin_id node_id stage_id
  let r := cache.invalidate s pattern
  ({ m with managed_keys := m.managed_keys.filter (fun key => !(pattern.matches key)) },
   r.1, r.2)

/-- `PluginCacheManager::clear_all`: calls `cache.clear_plugin` for this
plugin, then unconditionally clears the managed list; returns the store's
count. -/
def PluginCacheManager.clear_all {σ : Type} (m : PluginCacheManager)
    (cache : PluginCache σ) (s : σ) : PluginCacheManager × σ × Nat :=
  let r := cache.clear_plugin s m.plugin_id
  ({ m with managed_keys := [] }, r.1, r.2)

/-- `PluginCacheManager::get_statistics`. -/
def PluginCacheManager.get_statistics {σ : Type} (m : PluginCacheManager)
    (cache : PluginCache σ) (s : σ) : PluginCacheStatistics :=
  cache.get_plugin_statistics s m.plugin_id

/-- `PluginCacheManager::managed_key_count`. -/
def PluginCacheManager.managed_key_count (m : PluginCacheManager) : Nat :=
  m.managed_keys.length

namespace strategies

/-- `strategies::SimpleCache` from cache.rs. -/
structure SimpleCache where
  manager : PluginCacheManager

/-- `SimpleCache::new`. -/
def SimpleCache.new (plugin_id : String) : SimpleCache :=
  { manager := PluginCacheManager.new plugin_id }

/-- `SimpleCache::get_cached`. -/
def SimpleCache.get_cached {σ : Type} (sc : SimpleCache) (cache : PluginCache σ)
    (s : σ) (node_id : Nat) (port_index : Nat) : Option NodeData :=
  cache.get s (sc.manager.create_key node_id port_index)

/-- `SimpleCache::store_result`. -/
def SimpleCache.store_result {σ : Type} (sc : SimpleCache) (cache : PluginCache σ)
    (s : σ) (node_id : Nat) (port_index : Nat) (data : NodeData) :
    SimpleCache × σ × Except String Unit :=
  let key := sc.manager.create_key node_id port_index
  let r := sc.manager.store cache s key data
  ({ manager := r.1 }, r.2.1, r.2.2)

/-- `SimpleCache::invalidate`. -/
def SimpleCache.invalidate {σ : Type} (sc : SimpleCache) (cache : PluginCache σ)
    (s : σ) (node_id : Nat) : SimpleCache × σ × Nat :=
  let r := sc.manager.invalidate_node cache s node_id
  ({ manager := r.1 }, r.2.1, r.2.2)

/-- `strategies::MultiStageCache` from cache.rs. -/
structure MultiStageCache where
  manager : PluginCacheManager

/-- `MultiStageCache::new`. -/
def MultiStageCache.new (plugin_id : String) : MultiStageCache :=
  { manager := PluginCacheManager.new plugin_id }

/-- `MultiStageCache::get_stage_cached`. -/
def MultiStageCache.get_stage_cached {σ : Type} (msc : MultiStageCache)
    (cache : PluginCache σ) (s : σ) (node_id : Nat) (stage_id : String)
    (port_index : Nat) : Option NodeData :=
  cache.get s (msc.manager.create_stage_key node_id stage_id port_index)

/-- `MultiStageCache::store_stage_result`. -/
def MultiStageCache.store_stage_result {σ : Type} (msc : MultiStageCache)
    (cache : PluginCache σ) (s : σ) (node_id : Nat) (stage_id : String)
    (port_index : Nat) (data : NodeData) :
    MultiStageCache × σ × Except String Unit :=
  let key := msc.manager.create_stage_key node_id stage_id port_index
  let r := msc.manager.store cache s key data
  ({ manager := r.1 }, r.2.1, r.2.2)

/-- `MultiStageCache::invalidate_stage`: delegates to
`PluginCacheManager.invalidate_stage`. -/
def MultiStageCache.invalidate_stage {σ : Type} (msc : MultiStageCache)
    (cache : PluginCache σ) (s : σ) (node_id : Nat) (stage_id : String) :
    MultiStageCache × σ × Nat :=
  let r := msc.manager.invalidate_stage cache s node_id stage_id
  ({ manager := r.1 }, r.2.1, r.2.2)

/-- `MultiStageCache::invalidate_all_stages`: delegates to
`PluginCacheManager.invalidate_node`. -/
def MultiStageCache.invalidate_all_stages {σ : Type} (msc : MultiStageCache)
    (cache : PluginCache σ) (s : σ) (node_id : Nat) : MultiStageCache × σ × Nat :=
  let r := msc.manager.invalidate_node cache s node_id
  ({ manager := r.1 }, r.2.1, r.2.2)

end strategies

/-- Modelled from the spec: the repository only declares the `PluginCache`
trait (cache.rs lines 138-162); the host-side store implementation is not
under src/. Spec §4.2 fixes its observable behaviour: `insert` stores the
value under the key, overwriting any prior value for that key, and never
fails due to key collision; `get` returns the current value or nothing;
`take` returns and removes the value; `invalidate(pattern)` removes every
entry whose key matches the pattern and returns the number removed;
`clear_plugin(plugin_id)` is `invalidate(ByPlugin(plugin_id))`. The store
state is an association list holding at most one entry per key. -/
def SpecStore := List (PluginCacheKey × NodeData)

/-- Modelled from the spec: overwriting insert (§4.2): any prior entry for
the key is dropped, the new entry appended. -/
def SpecStore.insert (s : SpecStore) (k : PluginCacheKey) (d : NodeData) :
    SpecStore :=
  (List.filter (fun e => !(e.1 == k)) s) ++ [(k, d)]

/-- Modelled from the spec: lookup of the current value for a key (§4.2). -/
def SpecStore.get (s : SpecStore) (k : PluginCacheKey) : Option NodeData :=
  (List.find? (fun e => e.1 == k) s).map (fun e => e.2)

/-- Modelled from the spec: remove every entry whose key matches the pattern,
returning the new store and the number removed (§4.2). -/
def SpecStore.invalidate (s : SpecStore) (p : PluginCacheKeyPattern) :
    SpecStore × Nat :=
  (List.filter (fun e => !(p.matches e.1)) s,
   (List.filter (fun e => p.matches e.1) s).length)

/-- Modelled from the spec: the host store capability assembled from the
spec-modelled operations; statistics counters that require an access history
(hits, misses, invalidations, memory) are reported as 0, entry counts are
derived from the store contents. -/
def specCache : PluginCache SpecStore :=
  { insert := fun s k d => (SpecStore.insert s k d, Except.ok ()),
    get := fun s k => SpecStore.get s k,
    take := fun s k =>
      (List.filter (fun e => !(e.1 == k)) s,
       (List.find? (fun e => e.1 == k) s).map (fun e => e.2)),
    contains := fun s k => List.any s (fun e => e.1 == k),
    invalidate := fun s p => SpecStore.invalidate s p,
    clear_plugin := fun s plugin_id =>
      SpecStore.invalidate s (PluginCacheKeyPattern.Plugin plugin_id),
    get_plugin_statistics := fun s plugin_id =>
      { plugin_id := plugin_id,
        total_entries :=
          (List.filter (fun e => e.1.plugin_id == plugin_id) s).length,
        single_stage_entries :=
          (List.filter (fun e => e.1.plugin_id == plugin_id && !(e.1.has_stage)) s).length,
        multi_stage_entries :=
          (List.filter (fun e => e.1.plugin_id == plugin_id && e.1.has_stage) s).length },
    get_plugin_keys := fun s plugin_id =>
      (List.filter (fun e => e.1.plugin_id == plugin_id) s).map (fun e => e.1) }

/-- A host store stub whose `insert` always reports a storage failure;
exercises the error path of `PluginCacheManager.store` (spec §7: storage
failure is an error message from the host). -/
def failingCache : PluginCache Unit :=
  { insert := fun s _ _ => (s, Except.error "storage failure"),
    get := fun _ _ => none,
    take := fun s _ => (s, none),
    contains := fun _ _ => false,
    invalidate := fun s _ => (s, 0),
    clear_plugin := fun s _ => (s, 0),
    get_plugin_statistics := fun _ plugin_id => { plugin_id := plugin_id },
    get_plugin_keys := fun _ _ => [] }

/-- Statistics record with 3 hits, 1 miss, 4 entries, 100 bytes. -/
def statsHitEx : PluginCacheStatistics :=
  { plugin_id := "p", total_entries := 4, cache_hits := 3, cache_misses := 1,
    estimated_memory_usage := 100 }

/-- Fresh statistics record: no accesses, no entries. -/
def statsEmptyEx : PluginCacheStatistics := { plugin_id := "p" }

/-- A key owned by a different plugin than `managerEx`. -/
def foreignKeyEx : PluginCacheKey := PluginCacheKey.new "other" 1 0

/-- A manager for plugin "usd" that already tracks `foreignKeyEx`. -/
def managerEx : PluginCacheManager :=
  { plugin_id := "usd", managed_keys := [foreignKeyEx] }

/-- Scenario A start (spec §8): a fresh multi-stage strategy for plugin
"usd" over an empty store. -/
def usdStrategy0 : strategies.MultiStageCache := strategies.MultiStageCache.new "usd"

/-- Scenario A: store the "load" stage result for node 1, port 0. -/
def scenarioStep1 : strategies.MultiStageCache × SpecStore × Except String Unit :=
  usdStrategy0.store_stage_result specCache ([] : SpecStore) 1 "load" 0
    (NodeData.String "loaded")

/-- Scenario A: then store the "process" stage result for node 1, port 0. -/
def scenarioStep2 : strategies.MultiStageCache × SpecStore × Except String Unit :=
  scenarioStep1.1.store_stage_result specCache scenarioStep1.2.1 1 "process" 0
    (NodeData.String "processed")

/-- Scenario A: then invalidate stage "process" of node 1. -/
def scenarioResult : strategies.MultiStageCache × SpecStore × Nat :=
  scenarioStep2.1.invalidate_stage specCache scenarioStep2.2.1 1 "process"

/-- C7: a key built by `PluginCacheKey.new` has no stage; a key built by
`PluginCacheKey.with_stage s` reports a stage and `get_stage` returns exactly
`s` (constructor/accessor round trip). -/
theorem key_constructor_stage_round_trip (p : String) (n : Nat) (s : String)
    (i : Nat) :
    (PluginCacheKey.new p n i).has_stage = false ∧
    (PluginCacheKey.with_stage p n s i).has_stage = true ∧
    (PluginCacheKey.with_stage p n s i).get_stage = some s :=
  ⟨rfl, rfl, rfl⟩

/-- C2: `matches (Stage p n s) k` holds iff the plugin id, node id match and
`k.stage_id = some s`; in particular a key with absent `stage_id` never
matches a stage pattern, even when plugin and node ids agree. -/
theorem stage_pattern_matches_iff (p : String) (n : Nat) (s : String) :
    (∀ k : PluginCacheKey,
        (PluginCacheKeyPattern.Stage p n s).matches k = true ↔
          k.plugin_id = p ∧ k.node_id = n ∧ k.stage_id = some s) ∧
    (∀ i : Nat,
        (PluginCacheKeyPattern.Stage p n s).matches
          { plugin_id := p, node_id := n, stage_id := none, port_index := i }
          = false) := by
  constructor
  · intro k
    simp [PluginCacheKeyPattern.matches, and_assoc]
  · intro i
    simp [PluginCacheKeyPattern.matches]

/-- C4: `matches` implements exactly the four pattern rules: `Node p n` tests
plugin and node ids only, `Stage p n s` additionally requires `stage_id =
some s`, `Exact k0` is structural key equality, `Plugin p` tests the plugin
id only. -/
theorem matches_implements_the_four_rules (p : String) (n : Nat) (s : String)
    (k0 k : PluginCacheKey) :
    ((PluginCacheKeyPattern.Node p n).matches k = true ↔
        k.plugin_id = p ∧ k.node_id = n) ∧
    ((PluginCacheKeyPattern.Stage p n s).matches k = true ↔
        k.plugin_id = p ∧ k.node_id = n ∧ k.stage_id = some s) ∧
    ((PluginCacheKeyPattern.Exact k0).matches k = true ↔ k = k0) ∧
    ((PluginCacheKeyPattern.Plugin p).matches k = true ↔ k.plugin_id = p) := by
  refine ⟨?_, ?_, ?_, ?_⟩ <;> simp [PluginCacheKeyPattern.matches, and_assoc]

/-- C5: `matches (Exact k1) k2` holds iff `k1 = k2`, and key equality holds
iff all four fields (plugin id, node id, optional stage id including
presence, port index) agree. -/
theorem exact_match_iff_all_four_fields (k1 k2 : PluginCacheKey) :
    ((PluginCacheKeyPattern.Exact k1).matches k2 = true ↔ k1 = k2) ∧
    (k1 = k2 ↔
      k1.plugin_id = k2.plugin_id ∧ k1.node_id = k2.node_id ∧
        k1.stage_id = k2.stage_id ∧ k1.port_index = k2.port_index) := by
  constructor
  · simp only [PluginCacheKeyPattern.matches, beq_iff_eq]
    exact eq_comm
  · cases k1
    cases k2
    simp [PluginCacheKey.mk.injEq]

/-- C8: `hit_ratio` is 0 when there were no accesses and otherwise
hits/(hits+misses); `avg_memory_per_entry` is 0 when there are no entries and
otherwise memory/entries in integer division; both are total. -/
theorem statistics_ratios_guarded (st : PluginCacheStatistics) :
    (st.cache_hits + st.cache_misses = 0 →
        PluginCacheStatistics.hit_ratio st = 0) ∧
    (st.cache_hits + st.cache_misses ≠ 0 →
        PluginCacheStatistics.hit_ratio st =
          (st.cache_hits : Rat) / ((st.cache_hits + st.cache_misses : Nat) : Rat)) ∧
    (st.total_entries = 0 →
        PluginCacheStatistics.avg_memory_per_entry st = 0) ∧
    (st.total_entries ≠ 0 →
        PluginCacheStatistics.avg_memory_per_entry st =
          st.estimated_memory_usage / st.total_entries) := by
  refine ⟨?_, ?_, ?_, ?_⟩ <;> intro h <;>
    simp [PluginCacheStatistics.hit_ratio,
      PluginCacheStatistics.avg_memory_per_entry, h]

/-- C8 witness: 3 hits and 1 miss give ratio 3/4 and 100 bytes over 4 entries
give 25; the fresh record gives 0 for both. -/
theorem statistics_ratios_guarded_witness :
    PluginCacheStatistics.hit_ratio statsHitEx = 3 / 4 ∧
    PluginCacheStatistics.avg_memory_per_entry statsHitEx = 25 ∧
    PluginCacheStatistics.hit_ratio statsEmptyEx = 0 ∧
    PluginCacheStatistics.avg_memory_per_entry statsEmptyEx = 0 := by
  refine ⟨?_, ?_, ?_, ?_⟩
  · have h := (statistics_ratios_guarded statsHitEx).2.1 (by decide)
    rw [h]
    norm_num [statsHitEx]
  · have h := (statistics_ratios_guarded statsHitEx).2.2.2 (by decide)
    rw [h]
    decide
  · exact (statistics_ratios_guarded statsEmptyEx).1 rfl
  · exact (statistics_ratios_guarded statsEmptyEx).2.2.1 rfl

/-- C6: `clear_all` unconditionally empties the managed key list (so the
count is 0) and returns whatever count `clear_plugin` reported for this
plugin, independent of how many keys were managed locally. -/
theorem clear_all_unconditionally_empties {σ : Type} (cache : PluginCache σ)
    (m : PluginCacheManager) (s : σ) :
    (m.clear_all cache s).1.managed_keys = [] ∧
    (m.clear_all cache s).1.managed_key_count = 0 ∧
    (m.clear_all cache s).2.2 = (cache.clear_plugin s m.plugin_id).2 :=
  ⟨rfl, rfl, rfl⟩

/-- C1: when the store's `insert` fails, `PluginCacheManager.store` leaves the
managed key list and its count unchanged and propagates the error; the key is
pushed only on success. -/
theorem store_failure_preserves_bookkeeping {σ : Type} (cache : PluginCache σ)
    (m : PluginCacheManager) (s : σ) (key : PluginCacheKey) (data : NodeData)
    (e : String) (h : (cache.insert s key data).2 = Except.error e) :
    (m.store cache s key data).1.managed_keys = m.managed_keys ∧
    (m.store cache s key data).1.managed_key_count = m.managed_key_count ∧
    (m.store cache s key data).2.2 = Except.error e := by
  refine ⟨?_, ?_, ?_⟩ <;>
    simp [PluginCacheManager.store, h, PluginCacheManager.managed_key_count]

/-- C1 witness: storing through a host store whose `insert` always fails
leaves a fresh manager's bookkeeping untouched and returns the error. -/
theorem store_failure_preserves_bookkeeping_witness :
    ((PluginCacheManager.new "usd").store failingCache () (PluginCacheKey.new "usd" 1 0)
        NodeData.None).1.managed_keys = (PluginCacheManager.new "usd").managed_keys ∧
    ((PluginCacheManager.new "usd").store failingCache () (PluginCacheKey.new "usd" 1 0)
        NodeData.None).1.managed_key_count = (PluginCacheManager.new "usd").managed_key_count ∧
    ((PluginCacheManager.new "usd").store failingCache () (PluginCacheKey.new "usd" 1 0)
        NodeData.None).2.2 = Except.error "storage failure" :=
  store_failure_preserves_bookkeeping failingCache (PluginCacheManager.new "usd") ()
    (PluginCacheKey.new "usd" 1 0) NodeData.None "storage failure" rfl

/-- C9: the manager never checks that a stored key belongs to its own plugin:
a successful store of a key with a different plugin id still appends it, and
`invalidate_node` / `invalidate_stage` (whose patterns carry the manager's
own plugin id) never remove it from the managed list; `clear_all` does. -/
theorem foreign_key_only_removed_by_clear_all {σ : Type} (cache : PluginCache σ)
    (m : PluginCacheManager) (s : σ) (k : PluginCacheKey) (data : NodeData)
    (hp : k.plugin_id ≠ m.plugin_id) :
    ((cache.insert s k data).2 = Except.ok () →
        (m.store cache s k data).1.managed_keys = m.managed_keys ++ [k]) ∧
    (∀ n : Nat, k ∈ m.managed_keys →
        k ∈ (m.invalidate_node cache s n).1.managed_keys) ∧
    (∀ (n : Nat) (st : String), k ∈ m.managed_keys →
        k ∈ (m.invalidate_stage cache s n st).1.managed_keys) ∧
    (m.clear_all cache s).1.managed_keys = [] := by
  refine ⟨?_, ?_, ?_, rfl⟩
  · intro h
    simp [PluginCacheManager.store, h]
  · intro n hk
    simp [PluginCacheManager.invalidate_node, List.mem_filter, hk,
      PluginCacheKeyPattern.matches, hp]
  · intro n st hk
    simp [PluginCacheManager.invalidate_stage, List.mem_filter, hk,
      PluginCacheKeyPattern.matches, hp]

/-- C9 witness: a "usd" manager tracking a key of plugin "other" keeps that
key across node and stage invalidation, appends it again on a successful
store, and only `clear_all` empties the list. -/
theorem foreign_key_only_removed_by_clear_all_witness :
    (managerEx.store specCache ([] : SpecStore) foreignKeyEx NodeData.None).1.managed_keys
        = managerEx.managed_keys ++ [foreignKeyEx] ∧
    foreignKeyEx ∈ (managerEx.invalidate_node specCache ([] : SpecStore) 1).1.managed_keys ∧
    foreignKeyEx ∈ (managerEx.invalidate_stage specCache ([] : SpecStore) 1 "load").1.managed_keys ∧
    (managerEx.clear_all specCache ([] : SpecStore)).1.managed_keys = [] := by
  have h := foreign_key_only_removed_by_clear_all specCache managerEx ([] : SpecStore)
    foreignKeyEx NodeData.None (by decide)
  exact ⟨h.1 rfl, h.2.1 1 (by simp [managerEx]), h.2.2.1 1 "load" (by simp [managerEx]),
    h.2.2.2⟩

/-- After filtering out all entries for key `k`, no entry for `k` remains. -/
theorem filter_for_key_after_removal (k : PluginCacheKey)
    (l : List (PluginCacheKey × NodeData)) :
    List.filter (fun e => e.1 == k) (List.filter (fun e => !(e.1 == k)) l) = [] := by
  induction l with
  | nil => rfl
  | cons a t ih =>
    by_cases h : a.1 = k
    · simp [List.filter_cons, h, ih]
    · simp [List.filter_cons, h, ih]

/-- C10: the managed key list is not deduplicated: two successful stores of
the same key push it twice (count grows by 2), while the overwriting store
keeps a single live entry for that key. -/
theorem managed_keys_not_deduplicated (m : PluginCacheManager) (s : SpecStore)
    (k : PluginCacheKey) (d1 d2 : NodeData) :
    ((m.store specCache s k d1).1.store specCache
        (m.store specCache s k d1).2.1 k d2).1.managed_keys
      = m.managed_keys ++ [k, k] ∧
    ((m.store specCache s k d1).1.store specCache
        (m.store specCache s k d1).2.1 k d2).1.managed_key_count
      = m.managed_key_count + 2 ∧
    (List.filter (fun e => e.1 == k)
        ((m.store specCache s k d1).1.store specCache
          (m.store specCache s k d1).2.1 k d2).2.1).length = 1 := by
  refine ⟨?_, ?_, ?_⟩
  · simp [PluginCacheManager.store, specCache]
  · simp [PluginCacheManager.store, specCache, PluginCacheManager.managed_key_count]
  · simp [PluginCacheManager.store, specCache, SpecStore.insert,
      List.filter_append, filter_for_key_after_removal]

/-- C3 (Scenario A): after caching the "load" and "process" stage results of
node 1 and invalidating only stage "process", the "load" entry is still
retrievable, the "process" entry is gone, one key stays managed, and the
store reports one removal — no cascade across stages. -/
theorem invalidate_stage_does_not_cascade :
    specCache.get scenarioResult.2.1 (PluginCacheKey.with_stage "usd" 1 "load" 0)
      = some (NodeData.String "loaded") ∧
    specCache.get scenarioResult.2.1 (PluginCacheKey.with_stage "usd" 1 "process" 0)
      = none ∧
    scenarioResult.1.manager.managed_key_count = 1 ∧
    scenarioResult.2.2 = 1 :=
  ⟨rfl, rfl, rfl, rfl⟩
